import Mathlib

/-!
Shallow embedding of the two scripts of this repository:
`src/deploy_artifact.py` (a sequential, fail-fast four-command deployment
pipeline) and `src/server/cleanup.py` (a two-statement SQL purge with one
commit and a catch-all handler).

External commands are modelled by an oracle `env : Nat → CmdResult` giving
the result of the i-th `subprocess.check_call` invocation: the command may
run and exit with a code, or the call may raise an OS-level error (for
example `FileNotFoundError` when the executable is missing).
`subprocess.check_call` raises `CalledProcessError` exactly on a non-zero
exit; `run_command` catches only that exception, so an OS-level error
propagates out of `run_command` as a Python exception.  Every stage
function also returns the list of commands it invoked, in order, so that
the fail-fast and at-most-once claims are statements about traces.
-/

/-- Configuration constant `IMAGE_NAME` of `deploy_artifact.py`. -/
def IMAGE_NAME : String := "glassy-dash:prod"

/-- Configuration constant `ARTIFACT_NAME` of `deploy_artifact.py`. -/
def ARTIFACT_NAME : String := "glassy-dash.tar.gz"

/-- Configuration constant `JUMP_HOST` of `deploy_artifact.py`. -/
def JUMP_HOST : String := "glassy-jump"

/-- Configuration constant `VM_HOST` of `deploy_artifact.py`. -/
def VM_HOST : String := "glassy-vm"

/-- Configuration constant `VM_IP` of `deploy_artifact.py`. -/
def VM_IP : String := "192.168.122.45"

/-- Configuration constant `VM_USER` of `deploy_artifact.py`. -/
def VM_USER : String := "pozi"

/-- Result of one `subprocess.check_call` invocation in the environment:
the command ran and exited with `code`, or the call itself raised an
OS-level error (not a `CalledProcessError`). -/
inductive CmdResult
  | exit (code : Nat)
  | oserror
  deriving DecidableEq

/-- Python exceptions that can escape `run_command`: only the OS-level
errors, since `CalledProcessError` is caught there. -/
inductive PyExc
  | oserror
  deriving DecidableEq

/-- An external command: an argument vector (`shell=False`) or a shell
line (`shell=True`), exactly the two forms `run_command` passes on to
`subprocess.check_call`. -/
inductive Cmd
  | argv (args : List String)
  | shell (line : String)
  deriving DecidableEq

/-- The command of `docker build -t IMAGE_NAME .` run by `build_local`. -/
def dockerBuildCmd : Cmd := Cmd.argv ["docker", "build", "-t", IMAGE_NAME, "."]

/-- The shell line `docker save IMAGE_NAME | gzip > ARTIFACT_NAME` run by
`build_local` with `shell=True`. -/
def saveCompressCmd : Cmd :=
  Cmd.shell ("docker save " ++ IMAGE_NAME ++ " | gzip > " ++ ARTIFACT_NAME)

/-- The `remote_script` string built in `run_remote` (an f-string in the
source, reproduced here with its interpolations spelled out). -/
def remote_script : String :=
  "\n    echo '--> Loading image...'\n    gunzip -c ~/" ++ ARTIFACT_NAME ++
  " | sudo docker load\n    \n    echo '--> Cleaning up old container...'\n" ++
  "    sudo docker rm -f GLASSYDASH 2>/dev/null || true\n    \n" ++
  "    echo '--> Starting application...'\n    sudo docker run -d \\\n" ++
  "      --name GLASSYDASH \\\n      --restart unless-stopped \\\n" ++
  "      -p 3001:8080 \\\n      -e NODE_ENV=production \\\n" ++
  "      -e API_PORT=8080 \\\n      -e JWT_SECRET=\"deployed-secret-key-prod\" \\\n" ++
  "      -e DB_FILE=\"/app/data/notes.db\" \\\n      -e ADMIN_EMAILS=\"admin\" \\\n" ++
  "      -e ALLOW_REGISTRATION=false \\\n      -v ~/.GLASSYDASH:/app/data \\\n" ++
  "      " ++ IMAGE_NAME ++ "\n      \n    echo '--> Verifying...'\n" ++
  "    sudo docker ps | grep GLASSYDASH\n    "

/-- The `scp -o ProxyJump=JUMP_HOST ARTIFACT_NAME VM_USER@VM_IP:~/` command
run by `ship_artifact`. -/
def scpShipCmd : Cmd :=
  Cmd.argv ["scp", "-o", "ProxyJump=" ++ JUMP_HOST, ARTIFACT_NAME,
    VM_USER ++ "@" ++ VM_IP ++ ":~/"]

/-- The `ssh -J JUMP_HOST VM_USER@VM_IP remote_script` command run by
`run_remote`. -/
def sshRemoteCmd : Cmd :=
  Cmd.argv ["ssh", "-J", JUMP_HOST, VM_USER ++ "@" ++ VM_IP, remote_script]

/-- Result of running a piece of the script: the returned value (or the
Python exception that escaped), the index of the next external-command
invocation, and the commands invoked, in order. -/
structure RunRes (α : Type) where
  res : Except PyExc α
  next : Nat
  trace : List Cmd

/-- Embedding of `run_command` (`deploy_artifact.py`, lines 14-24): the
command is handed to `subprocess.check_call`; exit code 0 returns `True`;
a non-zero exit raises `CalledProcessError`, which the `except` clause
catches and converts to `False`; an OS-level error is not caught and
propagates. `i` is the index of this invocation in the run. -/
def run_command (env : Nat → CmdResult) (i : Nat) (cmd : Cmd) : RunRes Bool :=
  match env i with
  | CmdResult.exit 0 => ⟨Except.ok true, i + 1, [cmd]⟩
  | CmdResult.exit (Nat.succ _) => ⟨Except.ok false, i + 1, [cmd]⟩
  | CmdResult.oserror => ⟨Except.error PyExc.oserror, i + 1, [cmd]⟩

/-- Embedding of `build_local` (lines 26-39): run the docker-build
command; on `False` return `False` at once (the save/compress command is
not invoked); otherwise run the save/compress shell line and return its
result. An exception from either invocation propagates. -/
def build_local (env : Nat → CmdResult) (i : Nat) : RunRes Bool :=
  let r1 := run_command env i dockerBuildCmd
  match r1.res with
  | Except.error e => ⟨Except.error e, r1.next, r1.trace⟩
  | Except.ok false => ⟨Except.ok false, r1.next, r1.trace⟩
  | Except.ok true =>
      let r2 := run_command env r1.next saveCompressCmd
      match r2.res with
      | Except.error e => ⟨Except.error e, r2.next, r1.trace ++ r2.trace⟩
      | Except.ok false => ⟨Except.ok false, r2.next, r1.trace ++ r2.trace⟩
      | Except.ok true => ⟨Except.ok true, r2.next, r1.trace ++ r2.trace⟩

/-- Embedding of `ship_artifact` (lines 41-52): run the scp command; on
`False` return `False`, else return `True`. -/
def ship_artifact (env : Nat → CmdResult) (i : Nat) : RunRes Bool :=
  let r := run_command env i scpShipCmd
  match r.res with
  | Except.error e => ⟨Except.error e, r.next, r.trace⟩
  | Except.ok false => ⟨Except.ok false, r.next, r.trace⟩
  | Except.ok true => ⟨Except.ok true, r.next, r.trace⟩

/-- Embedding of `run_remote` (lines 54-91): run the ssh command carrying
`remote_script`; on `False` return `False`, else return `True`. -/
def run_remote (env : Nat → CmdResult) (i : Nat) : RunRes Bool :=
  let r := run_command env i sshRemoteCmd
  match r.res with
  | Except.error e => ⟨Except.error e, r.next, r.trace⟩
  | Except.ok false => ⟨Except.ok false, r.next, r.trace⟩
  | Except.ok true => ⟨Except.ok true, r.next, r.trace⟩

/-- Overall outcome of one run of the `__main__` block. `uncaught e` is a
run that ended with a propagating Python exception (a traceback, no status
line of the script's own). -/
inductive Outcome
  | noDockerfile
  | success
  | buildFailed
  | shipFailed
  | remoteFailed
  | uncaught (e : PyExc)
  deriving DecidableEq

/-- The status line the `__main__` block prints for each outcome, with the
source's string literals (each failure print starts with a newline). A run
ending in an uncaught exception prints no status line of its own. -/
def statusMessage : Outcome → String
  | Outcome.noDockerfile =>
      "Error: Run this script from the project root (where Dockerfile is)."
  | Outcome.success => "\n✅ Deployment to PROD Complete!"
  | Outcome.buildFailed => "\n❌ Build Failed"
  | Outcome.shipFailed => "\n❌ Shipping Failed"
  | Outcome.remoteFailed => "\n❌ Remote Run Failed"
  | Outcome.uncaught _ => ""

/-- Process exit status for each outcome: `sys.exit(1)` on the missing
Dockerfile, 1 for an uncaught exception (the interpreter's exit status),
and 0 when the script falls off the end of the `__main__` block. -/
def exitCodeOf : Outcome → Nat
  | Outcome.noDockerfile => 1
  | Outcome.uncaught _ => 1
  | _ => 0

/-- Result of one run of the script: the outcome and the full trace of
external commands invoked, in order. -/
structure MainRes where
  outcome : Outcome
  trace : List Cmd
  deriving DecidableEq

/-- Embedding of the `__main__` block (lines 93-108): guard on the
presence of `Dockerfile`, then `build_local`, `ship_artifact`,
`run_remote` in nested `if`s, each later stage run only when the earlier
one returned `True`. -/
def deployMain (dockerfileExists : Bool) (env : Nat → CmdResult) : MainRes :=
  if !dockerfileExists then
    ⟨Outcome.noDockerfile, []⟩
  else
    let r1 := build_local env 0
    match r1.res with
    | Except.error e => ⟨Outcome.uncaught e, r1.trace⟩
    | Except.ok false => ⟨Outcome.buildFailed, r1.trace⟩
    | Except.ok true =>
        let r2 := ship_artifact env r1.next
        match r2.res with
        | Except.error e => ⟨Outcome.uncaught e, r1.trace ++ r2.trace⟩
        | Except.ok false => ⟨Outcome.shipFailed, r1.trace ++ r2.trace⟩
        | Except.ok true =>
            let r3 := run_remote env r2.next
            match r3.res with
            | Except.error e => ⟨Outcome.uncaught e, r1.trace ++ r2.trace ++ r3.trace⟩
            | Except.ok false => ⟨Outcome.remoteFailed, r1.trace ++ r2.trace ++ r3.trace⟩
            | Except.ok true => ⟨Outcome.success, r1.trace ++ r2.trace ++ r3.trace⟩

/-- The four external commands of a full run, in declared order: build,
package (save and compress), ship, remote-execute. -/
def pipelineCmds : List Cmd :=
  [dockerBuildCmd, saveCompressCmd, scpShipCmd, sshRemoteCmd]

/-- Path constant `db_path` of `cleanup.py`. -/
def db_path : String :=
  "/home/pozicontrol/projects/glassy-dash/GLASSYDASH/server/data.sqlite"

/-- The two tables of `cleanup.py`, by row count: rows of `notes` and rows
of `note_collaborators`. -/
structure Db where
  notes : Nat
  note_collaborators : Nat
  deriving DecidableEq

/-- A sqlite connection: the committed (on-disk) database and the pending
view of the open transaction. Uncommitted changes live only in `pending`;
`sqlCommit` is the one operation that writes `committed`. -/
structure Conn where
  committed : Db
  pending : Db
  deriving DecidableEq

/-- Effect of `c.execute("DELETE FROM notes")` on the connection, with the
statement's `rowcount` (the number of rows it deleted). -/
def sqlDeleteNotes (c : Conn) : Conn × Nat :=
  (⟨c.committed, ⟨0, c.pending.note_collaborators⟩⟩, c.pending.notes)

/-- Effect of `c.execute("DELETE FROM note_collaborators")` on the
connection, with the statement's `rowcount`. -/
def sqlDeleteCollabs (c : Conn) : Conn × Nat :=
  (⟨c.committed, ⟨c.pending.notes, 0⟩⟩, c.pending.note_collaborators)

/-- Effect of `conn.commit()`: the pending transaction becomes the
committed database. -/
def sqlCommit (c : Conn) : Conn := ⟨c.pending, c.pending⟩

/-- The SQL statements `cleanup.py` can execute. -/
inductive SqlStmt
  | deleteNotes
  | deleteCollabs
  deriving DecidableEq

/-- Which sqlite exceptions the cleanup run meets: at `sqlite3.connect`,
at either DELETE, or at `conn.commit()`. -/
inductive SqlErr
  | connectErr
  | notesErr
  | collabsErr
  | commitErr
  deriving DecidableEq

/-- Which of the fallible sqlite calls of `cleanup.py` succeed in a given
execution. -/
structure CEnv where
  connectOk : Bool
  deleteNotesOk : Bool
  deleteCollabsOk : Bool
  commitOk : Bool
  deriving DecidableEq

/-- The final line `cleanup.py` prints: the SUCCESS line with the two
`rowcount` values, or the ERROR line of the `except Exception` handler. -/
inductive COutcome
  | successLine (deleted_notes deleted_collabs : Nat)
  | errorLine (e : SqlErr)
  deriving DecidableEq

/-- Rendering of the SUCCESS f-string of `cleanup.py`. -/
def successMessage (n m : Nat) : String :=
  "SUCCESS: Deleted " ++ toString n ++ " notes and " ++ toString m ++
    " collaborator records."

/-- Result of one execution of `cleanup.py`: the committed database after
the run, the DELETE statements successfully executed in order, how many
times `conn.commit()` ran, and the final printed line. -/
structure CleanupRes where
  committed : Db
  sqlTrace : List SqlStmt
  commits : Nat
  outcome : COutcome
  deriving DecidableEq

/-- Embedding of the module body of `cleanup.py` (lines 7-23): inside the
`try` block, connect, `DELETE FROM notes` (keeping its rowcount),
`DELETE FROM note_collaborators` (keeping its rowcount), one
`conn.commit()`, then the SUCCESS print; any exception jumps to the
`except Exception` handler, which prints the ERROR line, and an
uncommitted transaction leaves the committed database unchanged. -/
def cleanupScript (env : CEnv) (db : Db) : CleanupRes :=
  let c0 : Conn := ⟨db, db⟩
  if !env.connectOk then
    ⟨db, [], 0, COutcome.errorLine SqlErr.connectErr⟩
  else if !env.deleteNotesOk then
    ⟨c0.committed, [], 0, COutcome.errorLine SqlErr.notesErr⟩
  else
    let p1 := sqlDeleteNotes c0
    let c1 := p1.1
    let deleted_notes := p1.2
    if !env.deleteCollabsOk then
      ⟨c1.committed, [SqlStmt.deleteNotes], 0, COutcome.errorLine SqlErr.collabsErr⟩
    else
      let p2 := sqlDeleteCollabs c1
      let c2 := p2.1
      let deleted_collabs := p2.2
      if !env.commitOk then
        ⟨c2.committed, [SqlStmt.deleteNotes, SqlStmt.deleteCollabs], 0,
          COutcome.errorLine SqlErr.commitErr⟩
      else
        let c3 := sqlCommit c2
        ⟨c3.committed, [SqlStmt.deleteNotes, SqlStmt.deleteCollabs], 1,
          COutcome.successLine deleted_notes deleted_collabs⟩

/-- C1: fail-fast short-circuiting. When the docker-build command exits
non-zero, `build_local` returns `False`, the run reports a build failure,
and the only command ever invoked is the docker build (so the
save/compress line, `ship_artifact` and `run_remote` never run); when the
save/compress line exits non-zero the trace stops there; when the scp
command exits non-zero the run reports a shipping failure and the ssh
command of `run_remote` is never invoked. -/
theorem c1_fail_fast (env : Nat → CmdResult) (n : Nat) :
    (env 0 = CmdResult.exit (n + 1) →
      (deployMain true env).outcome = Outcome.buildFailed ∧
      (deployMain true env).trace = [dockerBuildCmd]) ∧
    (env 0 = CmdResult.exit 0 → env 1 = CmdResult.exit (n + 1) →
      (deployMain true env).outcome = Outcome.buildFailed ∧
      (deployMain true env).trace = [dockerBuildCmd, saveCompressCmd]) ∧
    (env 0 = CmdResult.exit 0 → env 1 = CmdResult.exit 0 →
      env 2 = CmdResult.exit (n + 1) →
      (deployMain true env).outcome = Outcome.shipFailed ∧
      (deployMain true env).trace = [dockerBuildCmd, saveCompressCmd, scpShipCmd]) := by
  refine ⟨fun h0 => ?_, fun h0 h1 => ?_, fun h0 h1 h2 => ?_⟩
  · simp [deployMain, build_local, run_command, h0]
  · simp [deployMain, build_local, run_command, h0, h1]
  · simp [deployMain, build_local, ship_artifact, run_command, h0, h1, h2]

/-- C2: all-success run. When all four external commands exit 0, the run
reports the success outcome, whose status line is the source's
"✅ Deployment to PROD Complete!" print, and the trace is exactly the four
commands build, package, ship, remote-execute, once each, in declared
order. -/
theorem c2_all_success (env : Nat → CmdResult)
    (h0 : env 0 = CmdResult.exit 0) (h1 : env 1 = CmdResult.exit 0)
    (h2 : env 2 = CmdResult.exit 0) (h3 : env 3 = CmdResult.exit 0) :
    (deployMain true env).outcome = Outcome.success ∧
    (deployMain true env).trace = pipelineCmds ∧
    statusMessage Outcome.success = "\n✅ Deployment to PROD Complete!" := by
  refine ⟨?_, ?_, rfl⟩ <;>
    simp [deployMain, build_local, ship_artifact, run_remote, run_command,
      pipelineCmds, h0, h1, h2, h3]

/-- C2 witness: the all-zero environment satisfies the hypotheses and the
run succeeds with the full four-command trace. -/
theorem c2_witness :
    (deployMain true (fun _ => CmdResult.exit 0)).outcome = Outcome.success ∧
    (deployMain true (fun _ => CmdResult.exit 0)).trace = pipelineCmds ∧
    statusMessage Outcome.success = "\n✅ Deployment to PROD Complete!" :=
  c2_all_success (fun _ => CmdResult.exit 0) rfl rfl rfl rfl

/-- C3 counterexample: the claim says every thrown error is caught at the
stage boundary and converted to `False`, but when `subprocess.check_call`
raises an OS-level error (for example `FileNotFoundError` for a missing
executable) `run_command` propagates it: at that concrete input the result
is a propagating exception, not the boolean `False` (nor `True`). -/
theorem c3_counterexample :
    (run_command (fun _ => CmdResult.oserror) 0 dockerBuildCmd).res =
      Except.error PyExc.oserror ∧
    (run_command (fun _ => CmdResult.oserror) 0 dockerBuildCmd).res ≠
      Except.ok false ∧
    (run_command (fun _ => CmdResult.oserror) 0 dockerBuildCmd).res ≠
      Except.ok true := by
  refine ⟨rfl, ?_, ?_⟩ <;> simp [run_command]

/-- C3 (amended): `run_command` returns `True` exactly when the command
runs and exits with status zero, and a non-zero exit (signalled by
`CalledProcessError`) is caught and converted to `False`; an OS-level
error thrown by the invocation itself is not caught and propagates as an
exception. -/
theorem c3_exit_status_boundary (env : Nat → CmdResult) (i : Nat) (cmd : Cmd) :
    ((run_command env i cmd).res = Except.ok true ↔ env i = CmdResult.exit 0) ∧
    (∀ n : Nat, env i = CmdResult.exit (n + 1) →
      (run_command env i cmd).res = Except.ok false) ∧
    (env i = CmdResult.oserror →
      (run_command env i cmd).res = Except.error PyExc.oserror) := by
  cases h : env i with
  | exit code =>
    cases code with
    | zero => simp [run_command, h]
    | succ m => simp [run_command, h]
  | oserror => simp [run_command, h]

/-- The three failure status lines the `__main__` block can print. -/
def failureLines : List String :=
  ["\n❌ Build Failed", "\n❌ Shipping Failed", "\n❌ Remote Run Failed"]

/-- C4: CLI outcome signalling. The entry point takes no arguments beyond
the modelled environment; when the full pipeline succeeds the process exit
status is 0, and for every other outcome the exit status is non-zero or
the printed status line is one of the failure messages. -/
theorem c4_cli_outcome (dockerfileExists : Bool) (env : Nat → CmdResult) :
    ((deployMain dockerfileExists env).outcome = Outcome.success →
      exitCodeOf (deployMain dockerfileExists env).outcome = 0) ∧
    ((deployMain dockerfileExists env).outcome ≠ Outcome.success →
      exitCodeOf (deployMain dockerfileExists env).outcome ≠ 0 ∨
      statusMessage (deployMain dockerfileExists env).outcome ∈ failureLines) := by
  cases ho : (deployMain dockerfileExists env).outcome <;>
    simp [exitCodeOf, statusMessage, failureLines]

/-- C5: no retries, strict sequencing. The four commands of the pipeline
are pairwise distinct, and for every environment and Dockerfile state the
run's command trace is an initial segment of the declared four-command
order — so each command (and with it each stage's action) is invoked at
most once, in declared order, and nothing runs after the first failure. -/
theorem c5_trace_stage_order (dockerfileExists : Bool) (env : Nat → CmdResult) :
    pipelineCmds.Nodup ∧
    ((deployMain dockerfileExists env).trace = List.take 0 pipelineCmds ∨
     (deployMain dockerfileExists env).trace = List.take 1 pipelineCmds ∨
     (deployMain dockerfileExists env).trace = List.take 2 pipelineCmds ∨
     (deployMain dockerfileExists env).trace = List.take 3 pipelineCmds ∨
     (deployMain dockerfileExists env).trace = List.take 4 pipelineCmds) := by
  constructor
  · decide
  · cases dockerfileExists with
    | false => left; simp [deployMain]
    | true =>
      cases h0 : env 0 with
      | oserror =>
          right; left
          simp [deployMain, build_local, run_command, h0, pipelineCmds]
      | exit c0 =>
        cases c0 with
        | succ m =>
            right; left
            simp [deployMain, build_local, run_command, h0, pipelineCmds]
        | zero =>
          cases h1 : env 1 with
          | oserror =>
              right; right; left
              simp [deployMain, build_local, run_command, h0, h1, pipelineCmds]
          | exit c1 =>
            cases c1 with
            | succ m =>
                right; right; left
                simp [deployMain, build_local, run_command, h0, h1, pipelineCmds]
            | zero =>
              cases h2 : env 2 with
              | oserror =>
                  right; right; right; left
                  simp [deployMain, build_local, ship_artifact, run_command,
                    h0, h1, h2, pipelineCmds]
              | exit c2 =>
                cases c2 with
                | succ m =>
                    right; right; right; left
                    simp [deployMain, build_local, ship_artifact, run_command,
                      h0, h1, h2, pipelineCmds]
                | zero =>
                    right; right; right; right
                    cases h3 : env 3 with
                    | oserror =>
                        simp [deployMain, build_local, ship_artifact, run_remote,
                          run_command, h0, h1, h2, h3, pipelineCmds]
                    | exit c3 =>
                      cases c3 <;>
                        simp [deployMain, build_local, ship_artifact, run_remote,
                          run_command, h0, h1, h2, h3, pipelineCmds]

/-- C6: failure identification. The run reports a build failure exactly
when `build_local` returned `False`, a shipping failure exactly when the
build succeeded and `ship_artifact` returned `False`, and a remote-run
failure exactly when both earlier stages succeeded and `run_remote`
returned `False`; the three status lines are the source's literals and
are pairwise distinct, so the printed failure message uniquely determines
the failed stage. -/
theorem c6_failure_identification (env : Nat → CmdResult) :
    ((deployMain true env).outcome = Outcome.buildFailed ↔
      (build_local env 0).res = Except.ok false) ∧
    ((deployMain true env).outcome = Outcome.shipFailed ↔
      (build_local env 0).res = Except.ok true ∧
      (ship_artifact env (build_local env 0).next).res = Except.ok false) ∧
    ((deployMain true env).outcome = Outcome.remoteFailed ↔
      (build_local env 0).res = Except.ok true ∧
      (ship_artifact env (build_local env 0).next).res = Except.ok true ∧
      (run_remote env (ship_artifact env (build_local env 0).next).next).res =
        Except.ok false) ∧
    statusMessage Outcome.buildFailed = "\n❌ Build Failed" ∧
    statusMessage Outcome.shipFailed = "\n❌ Shipping Failed" ∧
    statusMessage Outcome.remoteFailed = "\n❌ Remote Run Failed" ∧
    statusMessage Outcome.buildFailed ≠ statusMessage Outcome.shipFailed ∧
    statusMessage Outcome.buildFailed ≠ statusMessage Outcome.remoteFailed ∧
    statusMessage Outcome.shipFailed ≠ statusMessage Outcome.remoteFailed := by
  have hmsg : statusMessage Outcome.buildFailed ≠ statusMessage Outcome.shipFailed ∧
      statusMessage Outcome.buildFailed ≠ statusMessage Outcome.remoteFailed ∧
      statusMessage Outcome.shipFailed ≠ statusMessage Outcome.remoteFailed := by
    refine ⟨?_, ?_, ?_⟩ <;> decide
  refine ⟨?_, ?_, ?_, rfl, rfl, rfl, hmsg.1, hmsg.2.1, hmsg.2.2⟩ <;>
  · cases hr1 : (build_local env 0).res with
    | error e => simp [deployMain, hr1]
    | ok b1 =>
      cases b1 with
      | false => simp [deployMain, hr1]
      | true =>
        cases hr2 : (ship_artifact env (build_local env 0).next).res with
        | error e => simp [deployMain, hr1, hr2]
        | ok b2 =>
          cases b2 with
          | false => simp [deployMain, hr1, hr2]
          | true =>
            cases hr3 :
                (run_remote env (ship_artifact env (build_local env 0).next).next).res with
            | error e => simp [deployMain, hr1, hr2, hr3]
            | ok b3 => cases b3 <;> simp [deployMain, hr1, hr2, hr3]

/-- C9: entry-point precondition guard. When no `Dockerfile` exists in the
working directory, the run prints the source's error line, exits with
status 1, and invokes no external command at all. -/
theorem c9_dockerfile_guard (env : Nat → CmdResult) :
    (deployMain false env).outcome = Outcome.noDockerfile ∧
    statusMessage Outcome.noDockerfile =
      "Error: Run this script from the project root (where Dockerfile is)." ∧
    exitCodeOf (deployMain false env).outcome = 1 ∧
    (deployMain false env).trace = [] :=
  ⟨rfl, rfl, rfl, rfl⟩

/-- C10 counterexample: the claim says a non-zero exit status occurs only
for the missing-Dockerfile precondition, but a run in which the first
`subprocess.check_call` raises an OS-level error (the Dockerfile being
present) ends in an uncaught exception, whose interpreter exit status is
also non-zero. -/
theorem c10_counterexample :
    exitCodeOf (deployMain true (fun _ => CmdResult.oserror)).outcome = 1 ∧
    (deployMain true (fun _ => CmdResult.oserror)).outcome ≠
      Outcome.noDockerfile := by
  refine ⟨rfl, ?_⟩
  simp [deployMain, build_local, run_command]

/-- C10 (amended): when any pipeline stage returns `False`, the script
only prints the failure message and falls off the end of the program,
exiting with status 0 (no `sys.exit` on the stage-failure paths); among
runs that do not end in an uncaught exception, a non-zero exit status
occurs only for the missing-Dockerfile precondition, while a run ended by
an uncaught exception also exits non-zero. -/
theorem c10_exit_zero_on_stage_failure (dockerfileExists : Bool)
    (env : Nat → CmdResult) :
    (((deployMain dockerfileExists env).outcome = Outcome.buildFailed ∨
      (deployMain dockerfileExists env).outcome = Outcome.shipFailed ∨
      (deployMain dockerfileExists env).outcome = Outcome.remoteFailed) →
      exitCodeOf (deployMain dockerfileExists env).outcome = 0) ∧
    (exitCodeOf (deployMain dockerfileExists env).outcome ≠ 0 →
      (deployMain dockerfileExists env).outcome = Outcome.noDockerfile ∨
      ∃ e : PyExc, (deployMain dockerfileExists env).outcome = Outcome.uncaught e) := by
  cases ho : (deployMain dockerfileExists env).outcome with
  | noDockerfile =>
      exact ⟨fun h => by rcases h with h | h | h <;> exact Outcome.noConfusion h,
        fun _ => Or.inl rfl⟩
  | success => exact ⟨fun _ => rfl, fun h => absurd rfl h⟩
  | buildFailed => exact ⟨fun _ => rfl, fun h => absurd rfl h⟩
  | shipFailed => exact ⟨fun _ => rfl, fun h => absurd rfl h⟩
  | remoteFailed => exact ⟨fun _ => rfl, fun h => absurd rfl h⟩
  | uncaught e =>
      exact ⟨fun h => by rcases h with h | h | h <;> exact Outcome.noConfusion h,
        fun _ => Or.inr ⟨e, rfl⟩⟩

/-- C10 witness: a run whose docker build exits 1 reports the build
failure and exits with status 0. -/
theorem c10_witness :
    exitCodeOf (deployMain true (fun _ => CmdResult.exit 1)).outcome = 0 :=
  (c10_exit_zero_on_stage_failure true (fun _ => CmdResult.exit 1)).1 (Or.inl rfl)

/-- C7: cleanup behaviour. In the execution where every sqlite call
succeeds, the script executes exactly the two DELETE statements — first
all rows of `notes`, then all rows of `note_collaborators` — commits
exactly once, empties both tables, and reports the two deleted-row counts
in the source's SUCCESS line. -/
theorem c7_cleanup_behaviour (db : Db) :
    cleanupScript ⟨true, true, true, true⟩ db =
      ⟨⟨0, 0⟩, [SqlStmt.deleteNotes, SqlStmt.deleteCollabs], 1,
        COutcome.successLine db.notes db.note_collaborators⟩ ∧
    successMessage db.notes db.note_collaborators =
      "SUCCESS: Deleted " ++ toString db.notes ++ " notes and " ++
        toString db.note_collaborators ++ " collaborator records." :=
  ⟨rfl, rfl⟩

/-- C8: cleanup atomicity and total error handling. Every execution of
`cleanup.py` ends in exactly one of two ways — both tables are purged in
one committed transaction and the SUCCESS line carries the two row
counts, or some sqlite call failed, the committed database is unchanged
and the ERROR line of the catch-all handler is printed — and the single
commit happens only after both DELETE statements have executed. -/
theorem c8_cleanup_atomicity (env : CEnv) (db : Db) :
    (((cleanupScript env db).committed = ⟨0, 0⟩ ∧
      (cleanupScript env db).commits = 1 ∧
      (cleanupScript env db).outcome =
        COutcome.successLine db.notes db.note_collaborators) ∨
     ((cleanupScript env db).committed = db ∧
      (cleanupScript env db).commits = 0 ∧
      ∃ e : SqlErr, (cleanupScript env db).outcome = COutcome.errorLine e)) ∧
    ((cleanupScript env db).commits = 1 →
      (cleanupScript env db).sqlTrace =
        [SqlStmt.deleteNotes, SqlStmt.deleteCollabs]) := by
  rcases env with ⟨c, d1, d2, cm⟩
  cases c <;> cases d1 <;> cases d2 <;> cases cm <;>
    simp [cleanupScript, sqlDeleteNotes, sqlDeleteCollabs, sqlCommit]

/-- C8 witness: in the all-success execution on a database with 5 notes
and 7 collaborator rows, the single commit comes with exactly the two
DELETE statements. -/
theorem c8_witness :
    (cleanupScript ⟨true, true, true, true⟩ ⟨5, 7⟩).sqlTrace =
      [SqlStmt.deleteNotes, SqlStmt.deleteCollabs] :=
  (c8_cleanup_atomicity ⟨true, true, true, true⟩ ⟨5, 7⟩).2 rfl
